import Mathlib

/-!
Shallow embedding of `sf-coverage-viewer/src/services/salesforce-service.js`
(class `SalesforceService`) and the startup path of `src/app.js`
(class `CoverageApp`).

The external world (subprocess spawning, the filesystem, `JSON.parse`) is
modelled as an environment of oracles.  Every method of the service becomes a
pure Lean function of that environment, translated line by line from the
JavaScript source.  JavaScript numbers appearing as line counts are modelled
as `Int` (the code never relies on fractional counts); the floating-point
percentage computation `Math.round((covered / total * 100) * 100) / 100` is
modelled over `ℚ` with `Math.round x = ⌊x + 1/2⌋`, JavaScript's
round-half-up.
-/

/-- Outcome of spawning one subprocess: either the child process closed with
an exit code after emitting output, or spawning itself failed (the `error`
event) with a message. -/
inductive SpawnOutcome where
  | close (code : Int) (stdout : String) (stderr : String)
  | spawnError (msg : String)
deriving DecidableEq

/-- The plain result object that `runCommand` resolves with. -/
structure CmdResult where
  success : Bool
  stdout : String
  stderr : String
  code : Int
deriving DecidableEq

/-- One record of a `data query` JSON payload.  Fields the service reads:
`ApexClassOrTrigger?.Name` (tooling path), `Name` (fallback path),
`NumLinesCovered`, `NumLinesUncovered`.  `none` models an absent/null field. -/
structure SfRecord where
  apexClassOrTriggerName : Option String
  name : Option String
  numLinesCovered : Option Int
  numLinesUncovered : Option Int
deriving DecidableEq

/-- The `result` object of a query envelope: `{ result: { records: [...] } }`. -/
structure QueryResultBody where
  records : Option (List SfRecord)
deriving DecidableEq

/-- A parsed `data query` JSON envelope. -/
structure QueryData where
  result : Option QueryResultBody
deriving DecidableEq

/-- One org entry of the CLI's `org list` JSON. -/
structure OrgEntry where
  aliasName : Option String
  username : Option String
deriving DecidableEq

/-- The `result` object of an `org list` envelope. -/
structure OrgListBody where
  nonScratchOrgs : Option (List OrgEntry)
  scratchOrgs : Option (List OrgEntry)
deriving DecidableEq

/-- A parsed `org list` JSON envelope. -/
structure OrgListData where
  result : Option OrgListBody
deriving DecidableEq

/-- The `result` object of an `org display` envelope. -/
structure OrgDisplayBody where
  aliasName : Option String
  username : Option String
  instanceUrl : Option String
  id : Option String
deriving DecidableEq

/-- A parsed `org display` JSON envelope. -/
structure OrgDisplayData where
  result : Option OrgDisplayBody
deriving DecidableEq

/-- The environment of external effects: `spawn` (keyed by the full argument
vector), `fs.existsSync`, `os.platform() === 'win32'`, and `JSON.parse`
specialised to the three payload shapes the service reads (a `.error` value
models a thrown `SyntaxError`, carrying `e.message`). -/
structure Env where
  run : List String → SpawnOutcome
  fileExists : String → Bool
  isWindows : Bool
  parseQuery : String → Except String QueryData
  parseOrgList : String → Except String OrgListData
  parseOrgDisplay : String → Except String OrgDisplayData

/-- JavaScript `String.prototype.trim`: drop whitespace from both ends.
Defined by structural recursion over the character list (the core library's
`String.trim` is extensionally the same but is not kernel-reducible). -/
def jsTrim (s : String) : String :=
  String.mk (((s.data.dropWhile Char.isWhitespace).reverse.dropWhile Char.isWhitespace).reverse)

/-- JavaScript `String.prototype.toLowerCase` (ASCII range). -/
def jsToLower (s : String) : String :=
  String.mk (s.data.map Char.toLower)

/-- Does the second character list occur as a prefix of the first? -/
def charsStartWith : List Char → List Char → Bool
  | _, [] => true
  | [], _ :: _ => false
  | c :: cs, p :: ps => c = p && charsStartWith cs ps

/-- Does the second character list occur as a contiguous sublist of the
first? -/
def charsContain (s pat : List Char) : Bool :=
  match s with
  | [] => pat.isEmpty
  | _ :: rest => charsStartWith s pat || charsContain rest pat

/-- JavaScript `String.prototype.includes`. -/
def includesStr (s pat : String) : Bool :=
  charsContain s.data pat.data

/-- Splitting helper for `jsSplit`: accumulate the current field (reversed)
and cut at each separator. -/
def splitCharsAux (sep : Char) : List Char → List Char → List String
  | [], acc => [String.mk acc.reverse]
  | c :: cs, acc =>
      if c = sep then String.mk acc.reverse :: splitCharsAux sep cs []
      else splitCharsAux sep cs (c :: acc)

/-- JavaScript `String.prototype.split` with a single-character separator. -/
def jsSplit (s : String) (sep : Char) : List String :=
  splitCharsAux sep s.data []

/-- `runCommand` (salesforce-service.js lines 74-111): the promise resolves,
never rejects — on `close` with `success: code === 0` and trimmed output, on a
spawn `error` with `success:false` and `stderr: err.message`.  Totality of
this function is the embedding of "never rejects or throws". -/
def runCommand : SpawnOutcome → CmdResult
  | .close code stdout stderr =>
      { success := code == 0, stdout := jsTrim stdout, stderr := jsTrim stderr, code := code }
  | .spawnError msg =>
      { success := false, stdout := "", stderr := msg, code := -1 }

/-- Run an argument vector through the environment's spawn oracle. -/
def runCmd (env : Env) (args : List String) : CmdResult :=
  runCommand (env.run args)

/-- `path.join` restricted to the flat joins the service performs. -/
def pathJoin (isWindows : Bool) (parts : List String) : String :=
  String.intercalate (if isWindows then "\\" else "/") parts

/-- The candidate check of `findSFCLI`'s first loop: run `cmd --version` and
accept when it succeeded and the output mentions the Salesforce marker. -/
def versionCmdOk (env : Env) (cmd : String) : Bool :=
  let result := runCmd env ((jsSplit cmd ' ') ++ ["--version"])
  result.success && includesStr (jsToLower result.stdout) "salesforce"

/-- First loop of `findSFCLI` (lines 30-39): return the first candidate
invocation that passes `versionCmdOk`. -/
def tryCandidates (env : Env) : List String → Option (List String)
  | [] => none
  | cmd :: rest =>
      if versionCmdOk env cmd then some (jsSplit cmd ' ') else tryCandidates env rest

/-- Second loop of `findSFCLI` (lines 54-65): return the first path that
exists on disk and whose `--version` run succeeds. -/
def tryPaths (env : Env) : List String → Option (List String)
  | [] => none
  | p :: rest =>
      if env.fileExists p then
        if (runCmd env [p, "--version"]).success then some [p] else tryPaths env rest
      else tryPaths env rest

/-- The npm prefix probed by `findSFCLI`: `npm config get prefix`, trimmed. -/
def npmRoot (env : Env) : String :=
  jsTrim (runCmd env ["npm", "config", "get", "prefix"]).stdout

/-- The platform-specific executable file name, `sf.cmd` on Windows. -/
def sfFileName (isWindows : Bool) : String :=
  if isWindows then "sf.cmd" else "sf"

/-- First probed path under the npm prefix: `<npmRoot>/node_modules/.bin/<sf>`. -/
def npmPath1 (env : Env) : String :=
  pathJoin env.isWindows [npmRoot env, "node_modules", ".bin", sfFileName env.isWindows]

/-- Second probed path under the npm prefix: `<npmRoot>/bin/<sf>`. -/
def npmPath2 (env : Env) : String :=
  pathJoin env.isWindows [npmRoot env, "bin", sfFileName env.isWindows]

/-- `findSFCLI` (lines 26-72): try `sf` then `npx sf`; failing that, query the
npm prefix and probe two paths under it; failing that, `null`. -/
def findSFCLI (env : Env) : Option (List String) :=
  match tryCandidates env ["sf", "npx sf"] with
  | some cmd => some cmd
  | none =>
      if (runCmd env ["npm", "config", "get", "prefix"]).success then
        tryPaths env [npmPath1 env, npmPath2 env]
      else
        none

/-- `initialize` (lines 17-24): resolve the CLI and fail with the literal
message when `findSFCLI` returned null.  `Except.error` models `throw new
Error(...)`. -/
def initService (env : Env) : Except String (List String) :=
  match findSFCLI env with
  | none => .error "SF CLI not found. Please install SF CLI."
  | some cmd => .ok cmd

/-- Outcome of `CoverageApp.init` (app.js): either the HTTP server was
started with the resolved CLI command, or `process.exit(code)` was called. -/
inductive InitOutcome where
  | started (sfCommand : List String)
  | exited (code : Nat)
deriving DecidableEq

/-- `CoverageApp.init` (app.js lines 315-325): await the service's
initialization; on a thrown error, log and `process.exit(1)`; otherwise start
the server. -/
def appInit (env : Env) : InitOutcome :=
  match initService env with
  | .error _ => .exited 1
  | .ok cmd => .started cmd

/-- JavaScript `a || d` for an optional string `a` and default `d`:
an absent or empty (falsy) string yields the default. -/
def jsOrStr (a : Option String) (d : String) : String :=
  match a with
  | some s => if s = "" then d else s
  | none => d

/-- JavaScript `a || b` where both sides are optional strings
(`org.alias || org.username`): the result may itself be absent. -/
def jsOrOpt (a b : Option String) : Option String :=
  match a with
  | some s => if s = "" then b else some s
  | none => b

/-- The org descriptor built by `getAvailableOrgs`. -/
structure OrgDescriptor where
  aliasName : String
  username : String
  type : String
  identifier : Option String
deriving DecidableEq

/-- The descriptor pushed for one org entry (lines 132-137 and 143-148). -/
def mkOrgDescriptor (ty : String) (o : OrgEntry) : OrgDescriptor :=
  { aliasName := jsOrStr o.aliasName ""
    username := jsOrStr o.username ""
    type := ty
    identifier := jsOrOpt o.aliasName o.username }

/-- `getAvailableOrgs` (lines 118-156): list orgs via the CLI; on subprocess
failure or a JSON parse error return `[]`; otherwise map the non-scratch and
scratch org arrays to descriptors, in that order. -/
def getAvailableOrgs (env : Env) (sfCommand : List String) : List OrgDescriptor :=
  let result := runCmd env (sfCommand ++ ["org", "list", "--json"])
  if result.success then
    match env.parseOrgList result.stdout with
    | .error _ => []
    | .ok data =>
        let nonScratch := (data.result.bind (·.nonScratchOrgs)).getD []
        let scratch := (data.result.bind (·.scratchOrgs)).getD []
        nonScratch.map (mkOrgDescriptor "Production/Sandbox")
          ++ scratch.map (mkOrgDescriptor "Scratch Org")
  else []

/-- The org info snapshot built by `getOrgInfo`. -/
structure OrgInfo where
  name : String
  url : String
  username : String
  id : String
deriving DecidableEq

/-- `getOrgInfo` (lines 158-178): display the org via the CLI; on subprocess
failure, parse error, or a missing `result` object (which makes the field
accesses throw into the catch) return `null`. -/
def getOrgInfo (env : Env) (sfCommand : List String) (orgAlias : String) : Option OrgInfo :=
  let result := runCmd env (sfCommand ++ ["org", "display", "--target-org", orgAlias, "--json"])
  if result.success then
    match env.parseOrgDisplay result.stdout with
    | .error _ => none
    | .ok data =>
        match data.result with
        | none => none
        | some orgData =>
            some { name := jsOrStr orgData.aliasName (jsOrStr orgData.username "Unknown")
                   url := jsOrStr orgData.instanceUrl "Unknown"
                   username := jsOrStr orgData.username "Unknown"
                   id := jsOrStr orgData.id "Unknown" }
  else none

/-- Argument vector of the Tooling API probe run by `testToolingAPI`
(lines 180-189). -/
def probeArgs (sfCommand : List String) (orgAlias : String) : List String :=
  sfCommand ++ ["data", "query", "--query", "SELECT COUNT() FROM ApexClass LIMIT 1",
    "--target-org", orgAlias, "--use-tooling-api", "--json"]

/-- `testToolingAPI`: run the count probe and report its success. -/
def testToolingAPI (env : Env) (sfCommand : List String) (orgAlias : String) : Bool :=
  (runCmd env (probeArgs sfCommand orgAlias)).success

/-- The rich coverage query string of `getCoverageData` (template literal,
lines 209-214), whitespace included. -/
def toolingQuery : String :=
  "\n                SELECT ApexClassOrTrigger.Name, NumLinesCovered, NumLinesUncovered \n                FROM ApexCodeCoverageAggregate \n                WHERE ApexClassOrTrigger.NamespacePrefix = null\n                ORDER BY ApexClassOrTrigger.Name\n            "

/-- Argument vector of the rich coverage query (lines 216-220). -/
def toolingQueryArgs (sfCommand : List String) (orgAlias : String) : List String :=
  sfCommand ++ ["data", "query", "--query", toolingQuery,
    "--target-org", orgAlias, "--use-tooling-api", "--json"]

/-- Argument vector of the plain class-listing fallback query (lines 223-228). -/
def fallbackQueryArgs (sfCommand : List String) (orgAlias : String) : List String :=
  sfCommand ++ ["data", "query", "--query",
    "SELECT Id, Name FROM ApexClass WHERE NamespacePrefix = null LIMIT 50",
    "--target-org", orgAlias, "--json"]

/-- JavaScript `Math.round`: round half toward positive infinity. -/
def jsRound (q : ℚ) : ℤ := (q + 1 / 2).floor

/-- The per-class percentage expression of line 253:
`total > 0 ? Math.round((covered / total * 100) * 100) / 100 : 0.0`. -/
def computePercentage (covered total : Int) : ℚ :=
  if total > 0 then (jsRound ((covered : ℚ) / (total : ℚ) * 100 * 100) : ℚ) / 100 else 0

/-- One entry of the `response.coverage` map. -/
structure CoverageEntry where
  covered : Int
  uncovered : Int
  total : Int
  percentage : ℚ
deriving DecidableEq

/-- JavaScript object assignment `m[k] = v` on a string-keyed object whose
insertion order is observable: replace in place when the key exists, append
otherwise. -/
def upsert (m : List (String × CoverageEntry)) (k : String) (v : CoverageEntry) :
    List (String × CoverageEntry) :=
  match m with
  | [] => [(k, v)]
  | p :: rest => if p.1 = k then (k, v) :: rest else p :: upsert rest k v

/-- Mutable state accumulated by the two `records.forEach` loops of
`getCoverageData`: the coverage map and the two running totals. -/
structure CoverageAcc where
  coverage : List (String × CoverageEntry)
  totalCovered : Int
  totalUncovered : Int
deriving DecidableEq

/-- The entry stored on the tooling path (lines 249-254). -/
def toolingEntry (covered uncovered : Int) : CoverageEntry :=
  { covered := covered, uncovered := uncovered, total := covered + uncovered
    percentage := computePercentage covered (covered + uncovered) }

/-- Body of the tooling-path `records.forEach` (lines 242-259): skip records
with a falsy `ApexClassOrTrigger?.Name`; otherwise default the counts with
`|| 0`, store the derived entry, and bump the running totals. -/
def processToolingRecord (acc : CoverageAcc) (r : SfRecord) : CoverageAcc :=
  match r.apexClassOrTriggerName with
  | none => acc
  | some n =>
      if n = "" then acc
      else
        let covered := r.numLinesCovered.getD 0
        let uncovered := r.numLinesUncovered.getD 0
        { coverage := upsert acc.coverage n (toolingEntry covered uncovered)
          totalCovered := acc.totalCovered + covered
          totalUncovered := acc.totalUncovered + uncovered }

/-- The all-zero entry stored on the fallback path (lines 265-270). -/
def zeroEntry : CoverageEntry :=
  { covered := 0, uncovered := 0, total := 0, percentage := 0 }

/-- Body of the fallback-path `records.forEach` (lines 262-272): skip records
with a falsy `Name`; otherwise store the all-zero entry. -/
def processFallbackRecord (acc : CoverageAcc) (r : SfRecord) : CoverageAcc :=
  match r.name with
  | none => acc
  | some n =>
      if n = "" then acc
      else { acc with coverage := upsert acc.coverage n zeroEntry }

/-- The response object of `getCoverageData` (lines 192-200). -/
structure CoverageResponse where
  success : Bool
  coverage : List (String × CoverageEntry)
  totalCovered : Int
  totalUncovered : Int
  overallPercentage : ℚ
  error : Option String
  toolingAPIUsed : Bool
deriving DecidableEq

/-- The query `getCoverageData` executes after the probe: the rich coverage
query when the Tooling API probe succeeded, the fallback otherwise
(lines 206-229). -/
def executedQueryArgs (env : Env) (sfCommand : List String) (orgAlias : String) :
    List String :=
  if testToolingAPI env sfCommand orgAlias then toolingQueryArgs sfCommand orgAlias
  else fallbackQueryArgs sfCommand orgAlias

/-- The subprocess result of the query `getCoverageData` executes after the
probe (the `result` local of lines 206-229). -/
def queryResult (env : Env) (sfCommand : List String) (orgAlias : String) : CmdResult :=
  runCmd env (executedQueryArgs env sfCommand orgAlias)

/-- The record list `getCoverageData` processes: empty unless the executed
query succeeded and its output parsed, in which case `result?.records || []`. -/
def queryRecords (env : Env) (sfCommand : List String) (orgAlias : String) : List SfRecord :=
  let result := queryResult env sfCommand orgAlias
  if result.success then
    match env.parseQuery result.stdout with
    | .error _ => []
    | .ok data => (data.result.bind (·.records)).getD []
  else []

/-- `getCoverageData` (lines 191-287), additionally returning the trace of
subprocess argument vectors it issued, in order.  Control flow: probe the
Tooling API, pick the rich or the fallback query accordingly, surface a
subprocess failure as `Query failed: <stderr>`, a parse failure as
`Failed to parse data: <message>`, process the records per path, set the
fallback notice, compute the overall percentage, and mark success. -/
def getCoverageData (env : Env) (sfCommand : List String) (orgAlias : String) :
    CoverageResponse × List (List String) :=
  let toolingAvailable := testToolingAPI env sfCommand orgAlias
  let result := queryResult env sfCommand orgAlias
  let trace := [probeArgs sfCommand orgAlias, executedQueryArgs env sfCommand orgAlias]
  if result.success then
    match env.parseQuery result.stdout with
    | .error msg =>
        ({ success := false, coverage := [], totalCovered := 0, totalUncovered := 0
           overallPercentage := 0, error := some ("Failed to parse data: " ++ msg)
           toolingAPIUsed := toolingAvailable }, trace)
    | .ok data =>
        let records := (data.result.bind (·.records)).getD []
        let acc :=
          if toolingAvailable then records.foldl processToolingRecord ⟨[], 0, 0⟩
          else records.foldl processFallbackRecord ⟨[], 0, 0⟩
        let totalLines := acc.totalCovered + acc.totalUncovered
        ({ success := true, coverage := acc.coverage
           totalCovered := acc.totalCovered, totalUncovered := acc.totalUncovered
           overallPercentage :=
             if totalLines > 0 then
               (jsRound ((acc.totalCovered : ℚ) / (totalLines : ℚ) * 100 * 100) : ℚ) / 100
             else 0
           error :=
             if toolingAvailable then none
             else some "Tooling API not available - showing class list only"
           toolingAPIUsed := toolingAvailable }, trace)
  else
    ({ success := false, coverage := [], totalCovered := 0, totalUncovered := 0
       overallPercentage := 0, error := some ("Query failed: " ++ result.stderr)
       toolingAPIUsed := toolingAvailable }, trace)

/-- Rounding to two decimal places, as the specification words it:
`round(v, 2)` with round-half-up. -/
def roundTo2 (x : ℚ) : ℚ := (⌊x * 100 + 1 / 2⌋ : ℚ) / 100

/-- The shape every coverage entry the service constructs satisfies:
the total is the sum of the counts and the percentage is the derived
ternary expression. -/
def EntryOK (e : CoverageEntry) : Prop :=
  e.total = e.covered + e.uncovered ∧ e.percentage = computePercentage e.covered e.total

/-- Sum of the `covered` fields over the entries of a coverage map. -/
def sumCov (m : List (String × CoverageEntry)) : Int :=
  (m.map (fun q => q.2.covered)).sum

/-- Sum of the `uncovered` fields over the entries of a coverage map. -/
def sumUnc (m : List (String × CoverageEntry)) : Int :=
  (m.map (fun q => q.2.uncovered)).sum

/-- The name under which the tooling loop files a record, if any: skipped
when `ApexClassOrTrigger?.Name` is absent or empty (falsy). -/
def keptName (r : SfRecord) : Option String :=
  match r.apexClassOrTriggerName with
  | none => none
  | some n => if n = "" then none else some n

/-- The contribution of one record to the running `totalCovered`. -/
def recCovered (r : SfRecord) : Int :=
  match keptName r with
  | none => 0
  | some _ => r.numLinesCovered.getD 0

/-- The contribution of one record to the running `totalUncovered`. -/
def recUncovered (r : SfRecord) : Int :=
  match keptName r with
  | none => 0
  | some _ => r.numLinesUncovered.getD 0

/-- The entries the tooling loop appends, one per kept record. -/
def toolingEntries (recs : List SfRecord) : List (String × CoverageEntry) :=
  recs.filterMap fun r =>
    (keptName r).map fun n =>
      (n, toolingEntry (r.numLinesCovered.getD 0) (r.numLinesUncovered.getD 0))

/-- `result?.records || []` of a parsed query envelope. -/
def parsedRecords (data : QueryData) : List SfRecord :=
  (data.result.bind (·.records)).getD []

/-- The accumulator state after the per-path `forEach` loop. -/
def parsedAcc (env : Env) (sfCommand : List String) (orgAlias : String)
    (data : QueryData) : CoverageAcc :=
  if testToolingAPI env sfCommand orgAlias then
    (parsedRecords data).foldl processToolingRecord ⟨[], 0, 0⟩
  else
    (parsedRecords data).foldl processFallbackRecord ⟨[], 0, 0⟩

/-- One probe step of the npm path loop of `findSFCLI`: the path exists on
disk and its `--version` run succeeds. -/
def pathOk (env : Env) (p : String) : Bool :=
  env.fileExists p && (runCmd env [p, "--version"]).success

/-- Environment for the C4 witness: `sf --version` succeeds and prints the
marker; everything else fails to spawn. -/
def envC4 : Env :=
  { run := fun a => if a = ["sf", "--version"] then .close 0 "salesforce cli" "" else .spawnError "not found"
    fileExists := fun _ => false
    isWindows := false
    parseQuery := fun _ => .error "bad"
    parseOrgList := fun _ => .error "bad"
    parseOrgDisplay := fun _ => .error "bad" }

/-- Environment for the C6 witness: every spawn fails. -/
def envC6 : Env :=
  { run := fun _ => .spawnError "ENOENT"
    fileExists := fun _ => false
    isWindows := false
    parseQuery := fun _ => .error "bad"
    parseOrgList := fun _ => .error "bad"
    parseOrgDisplay := fun _ => .error "bad" }

/-- Environment for the C2 witness: every spawn closes with exit code 1. -/
def envC2 : Env :=
  { run := fun _ => .close 1 "" "bad query"
    fileExists := fun _ => false
    isWindows := false
    parseQuery := fun _ => .error "bad"
    parseOrgList := fun _ => .error "bad"
    parseOrgDisplay := fun _ => .error "bad" }

/-- Environment for the C5 witness: every spawn succeeds but every JSON
parse fails. -/
def envC5 : Env :=
  { run := fun _ => .close 0 "x" ""
    fileExists := fun _ => false
    isWindows := false
    parseQuery := fun _ => .error "Unexpected token"
    parseOrgList := fun _ => .error "Unexpected token"
    parseOrgDisplay := fun _ => .error "Unexpected token" }

/-- Environment for the C7 counterexample: the org list parses to a single
non-scratch org with neither alias nor username. -/
def envC7 : Env :=
  { run := fun _ => .close 0 "x" ""
    fileExists := fun _ => false
    isWindows := false
    parseQuery := fun _ => .error "bad"
    parseOrgList := fun _ => .ok ⟨some ⟨some [⟨none, none⟩], none⟩⟩
    parseOrgDisplay := fun _ => .error "bad" }

/-- Environment for the C7 witness: one non-scratch org with an alias and a
username, one scratch org with only a username. -/
def envC7w : Env :=
  { run := fun _ => .close 0 "x" ""
    fileExists := fun _ => false
    isWindows := false
    parseQuery := fun _ => .error "bad"
    parseOrgList := fun _ =>
      .ok ⟨some ⟨some [⟨some "dev", some "user@example.com"⟩],
        some [⟨none, some "scratch@example.com"⟩]⟩⟩
    parseOrgDisplay := fun _ => .error "bad" }

/-- The org-list payload the C7 witness environment parses to. -/
def dataC7w : OrgListData :=
  ⟨some ⟨some [⟨some "dev", some "user@example.com"⟩],
    some [⟨none, some "scratch@example.com"⟩]⟩⟩

/-- Environment for the C1 witness: the probe and the query succeed; the
payload parses to one coverage record for Foo with 3 covered, 1 uncovered. -/
def envC1 : Env :=
  { run := fun _ => .close 0 "x" ""
    fileExists := fun _ => false
    isWindows := false
    parseQuery := fun _ => .ok ⟨some ⟨some [⟨some "Foo", none, some 3, some 1⟩]⟩⟩
    parseOrgList := fun _ => .error "bad"
    parseOrgDisplay := fun _ => .error "bad" }

/-- The coverage entry the C1 witness environment produces for Foo. -/
def entryC1 : CoverageEntry := toolingEntry 3 1

/-- Environment for the C3 witness: the probe exits 1, everything else exits
0, and the fallback payload parses to one class record named Bar. -/
def envC3 : Env :=
  { run := fun a => if a = probeArgs ["sf"] "o" then .close 1 "" "" else .close 0 "x" ""
    fileExists := fun _ => false
    isWindows := false
    parseQuery := fun _ => .ok ⟨some ⟨some [⟨none, some "Bar", none, none⟩]⟩⟩
    parseOrgList := fun _ => .error "bad"
    parseOrgDisplay := fun _ => .error "bad" }

/-- Environment for the C8 witness: one tooling record for Baz with 7
covered, 3 uncovered. -/
def envC8 : Env :=
  { run := fun _ => .close 0 "x" ""
    fileExists := fun _ => false
    isWindows := false
    parseQuery := fun _ => .ok ⟨some ⟨some [⟨some "Baz", none, some 7, some 3⟩]⟩⟩
    parseOrgList := fun _ => .error "bad"
    parseOrgDisplay := fun _ => .error "bad" }

/-- Environment for the C9 counterexample: the tooling payload parses to two
records that share the name A, 1 covered line each. -/
def envC9 : Env :=
  { run := fun _ => .close 0 "x" ""
    fileExists := fun _ => false
    isWindows := false
    parseQuery := fun _ => .ok ⟨some ⟨some
      [⟨some "A", none, some 1, some 0⟩, ⟨some "A", none, some 1, some 0⟩]⟩⟩
    parseOrgList := fun _ => .error "bad"
    parseOrgDisplay := fun _ => .error "bad" }

/-- Environment for the C9 witness: one record named A with 2 covered and 1
uncovered line. -/
def envC9w : Env :=
  { run := fun _ => .close 0 "x" ""
    fileExists := fun _ => false
    isWindows := false
    parseQuery := fun _ => .ok ⟨some ⟨some [⟨some "A", none, some 2, some 1⟩]⟩⟩
    parseOrgList := fun _ => .error "bad"
    parseOrgDisplay := fun _ => .error "bad" }

/-- Environment for claim C10: the probe exits 1; the fallback query exits 0
and parses to one class record named Foo. -/
def envC10 : Env :=
  { run := fun a => if a = probeArgs ["sf"] "o" then .close 1 "" "" else .close 0 "x" ""
    fileExists := fun _ => false
    isWindows := false
    parseQuery := fun _ => .ok ⟨some ⟨some [⟨none, some "Foo", none, none⟩]⟩⟩
    parseOrgList := fun _ => .error "bad"
    parseOrgDisplay := fun _ => .error "bad" }

/-! ### Rounding and percentage lemmas -/

theorem jsRound_eq_floor (q : ℚ) : jsRound q = ⌊q + 1 / 2⌋ := by
  rw [jsRound, Rat.floor_def', ← Rat.floor_def]

theorem computePercentage_eq_roundTo2 (c t : Int) (h : 0 < t) :
    computePercentage c t = roundTo2 ((c : ℚ) / (t : ℚ) * 100) := by
  rw [computePercentage, if_pos h, roundTo2, jsRound_eq_floor]

theorem computePercentage_of_nonpos (c t : Int) (h : ¬ 0 < t) :
    computePercentage c t = 0 := by
  rw [computePercentage, if_neg h]

theorem computePercentage_bounds (c u : Int) (hc : 0 ≤ c) (hu : 0 ≤ u) :
    0 ≤ computePercentage c (c + u) ∧ computePercentage c (c + u) ≤ 100 := by
  by_cases h : (0 : Int) < c + u
  · rw [computePercentage, if_pos h]
    have ht : (0 : ℚ) < ((c + u : Int) : ℚ) := by exact_mod_cast h
    have hcq : (0 : ℚ) ≤ (c : ℚ) := by exact_mod_cast hc
    have hle : (c : ℚ) / ((c + u : Int) : ℚ) ≤ 1 := by
      rw [div_le_one ht]
      exact_mod_cast Int.le_add_of_nonneg_right hu
    have hq0 : (0 : ℚ) ≤ (c : ℚ) / ((c + u : Int) : ℚ) * 100 * 100 := by positivity
    have hq1 : (c : ℚ) / ((c + u : Int) : ℚ) * 100 * 100 ≤ 10000 := by nlinarith
    push_cast at hq0 hq1
    have hlow : (0 : ℤ) ≤ jsRound ((c : ℚ) / ((c + u : Int) : ℚ) * 100 * 100) := by
      rw [jsRound_eq_floor]
      exact Int.le_floor.mpr (by push_cast; linarith)
    have hhigh : jsRound ((c : ℚ) / ((c + u : Int) : ℚ) * 100 * 100) ≤ 10000 := by
      have : jsRound ((c : ℚ) / ((c + u : Int) : ℚ) * 100 * 100) < 10001 := by
        rw [jsRound_eq_floor, Int.floor_lt]
        push_cast
        linarith
      omega
    constructor
    · apply div_nonneg _ (by norm_num : (0 : ℚ) ≤ 100)
      exact_mod_cast hlow
    · rw [div_le_iff₀ (by norm_num : (0 : ℚ) < 100)]
      calc (jsRound ((c : ℚ) / ((c + u : Int) : ℚ) * 100 * 100) : ℚ)
          ≤ ((10000 : ℤ) : ℚ) := by exact_mod_cast hhigh
        _ = 100 * 100 := by norm_num
  · rw [computePercentage, if_neg h]
    norm_num

/-! ### Coverage map invariants -/

theorem toolingEntry_ok (c u : Int) : EntryOK (toolingEntry c u) := ⟨rfl, rfl⟩

theorem zeroEntry_ok : EntryOK zeroEntry := by
  refine ⟨rfl, ?_⟩
  rw [zeroEntry, computePercentage]
  norm_num

theorem forall_mem_upsert {P : CoverageEntry → Prop} {m : List (String × CoverageEntry)}
    {k : String} {v : CoverageEntry} (hm : ∀ q ∈ m, P q.2) (hv : P v) :
    ∀ q ∈ upsert m k v, P q.2 := by
  induction m with
  | nil =>
      intro q hq
      rw [upsert, List.mem_singleton] at hq
      simpa [hq] using hv
  | cons p tl ih =>
      intro q hq
      rw [upsert] at hq
      split at hq
      · rcases List.mem_cons.mp hq with h | h
        · simpa [h] using hv
        · exact hm q (List.mem_cons_of_mem _ h)
      · rcases List.mem_cons.mp hq with h | h
        · exact hm q (h ▸ List.mem_cons_self _ _)
        · exact ih (fun q hq => hm q (List.mem_cons_of_mem _ hq)) q h

theorem toolingFold_entryOK (recs : List SfRecord) (acc : CoverageAcc)
    (hacc : ∀ q ∈ acc.coverage, EntryOK q.2) :
    ∀ q ∈ (recs.foldl processToolingRecord acc).coverage, EntryOK q.2 := by
  induction recs generalizing acc with
  | nil => simpa using hacc
  | cons r rest ih =>
      rw [List.foldl_cons]
      apply ih
      rcases hr : r.apexClassOrTriggerName with _ | n
      · simp only [processToolingRecord, hr]
        exact hacc
      · simp only [processToolingRecord, hr]
        by_cases hn : n = ""
        · rw [if_pos hn]
          exact hacc
        · rw [if_neg hn]
          exact forall_mem_upsert hacc (toolingEntry_ok _ _)

theorem fallbackFold_zeroEntry (recs : List SfRecord) (acc : CoverageAcc)
    (hacc : ∀ q ∈ acc.coverage, q.2 = zeroEntry) :
    ∀ q ∈ (recs.foldl processFallbackRecord acc).coverage, q.2 = zeroEntry := by
  induction recs generalizing acc with
  | nil => simpa using hacc
  | cons r rest ih =>
      rw [List.foldl_cons]
      apply ih
      rcases hr : r.name with _ | n
      · simp only [processFallbackRecord, hr]
        exact hacc
      · simp only [processFallbackRecord, hr]
        by_cases hn : n = ""
        · rw [if_pos hn]
          exact hacc
        · rw [if_neg hn]
          exact forall_mem_upsert (P := fun e => e = zeroEntry) hacc rfl

theorem getCoverageData_entryOK (env : Env) (sfCommand : List String) (orgAlias : String) :
    ∀ q ∈ (getCoverageData env sfCommand orgAlias).1.coverage, EntryOK q.2 := by
  rw [getCoverageData]
  split
  · split
    · intro q hq
      simp at hq
    · split
      · exact toolingFold_entryOK _ _ (by intro q hq; simp at hq)
      · intro q hq
        have := fallbackFold_zeroEntry _ _ (by intro q hq; simp at hq) q hq
        rw [this]
        exact zeroEntry_ok
  · intro q hq
    simp at hq

/-! ### Branch characterizations of getCoverageData -/

theorem getCoverageData_trace (env : Env) (sfCommand : List String) (orgAlias : String) :
    (getCoverageData env sfCommand orgAlias).2 =
      [probeArgs sfCommand orgAlias, executedQueryArgs env sfCommand orgAlias] := by
  rw [getCoverageData]
  split
  · split <;> rfl
  · rfl

theorem getCoverageData_toolingAPIUsed (env : Env) (sfCommand : List String) (orgAlias : String) :
    (getCoverageData env sfCommand orgAlias).1.toolingAPIUsed =
      testToolingAPI env sfCommand orgAlias := by
  rw [getCoverageData]
  split
  · split <;> rfl
  · rfl

theorem getCoverageData_queryFail (env : Env) (sfCommand : List String) (orgAlias : String)
    (h : (queryResult env sfCommand orgAlias).success = false) :
    (getCoverageData env sfCommand orgAlias).1 =
      { success := false, coverage := [], totalCovered := 0, totalUncovered := 0
        overallPercentage := 0
        error := some ("Query failed: " ++ (queryResult env sfCommand orgAlias).stderr)
        toolingAPIUsed := testToolingAPI env sfCommand orgAlias } := by
  rw [getCoverageData]
  split
  · simp_all
  · rfl

theorem getCoverageData_parseFail (env : Env) (sfCommand : List String) (orgAlias : String)
    (msg : String)
    (hs : (queryResult env sfCommand orgAlias).success = true)
    (hp : env.parseQuery (queryResult env sfCommand orgAlias).stdout = .error msg) :
    (getCoverageData env sfCommand orgAlias).1 =
      { success := false, coverage := [], totalCovered := 0, totalUncovered := 0
        overallPercentage := 0
        error := some ("Failed to parse data: " ++ msg)
        toolingAPIUsed := testToolingAPI env sfCommand orgAlias } := by
  rw [getCoverageData]
  split
  · split
    · simp_all
    · simp_all
  · simp_all

theorem getCoverageData_overall (env : Env) (sfCommand : List String) (orgAlias : String) :
    (getCoverageData env sfCommand orgAlias).1.overallPercentage =
      computePercentage (getCoverageData env sfCommand orgAlias).1.totalCovered
        ((getCoverageData env sfCommand orgAlias).1.totalCovered
          + (getCoverageData env sfCommand orgAlias).1.totalUncovered) := by
  rw [getCoverageData]
  split
  · split
    · rw [computePercentage]
      norm_num
    · rw [computePercentage]
  · rw [computePercentage]
    norm_num

/-! ### Sums over the coverage map (claim C9 machinery) -/

theorem toolingFold_totals (recs : List SfRecord) (acc : CoverageAcc) :
    (recs.foldl processToolingRecord acc).totalCovered
        = acc.totalCovered + (recs.map recCovered).sum ∧
    (recs.foldl processToolingRecord acc).totalUncovered
        = acc.totalUncovered + (recs.map recUncovered).sum := by
  induction recs generalizing acc with
  | nil => simp
  | cons r rest ih =>
      rw [List.foldl_cons, List.map_cons, List.map_cons, List.sum_cons, List.sum_cons]
      rcases hr : r.apexClassOrTriggerName with _ | n
      · have hk : keptName r = none := by simp [keptName, hr]
        simp only [processToolingRecord, hr, recCovered, recUncovered, hk]
        have := ih acc
        omega
      · by_cases hn : n = ""
        · have hk : keptName r = none := by simp [keptName, hr, hn]
          simp only [processToolingRecord, hr, if_pos hn, recCovered, recUncovered, hk]
          have := ih acc
          omega
        · have hk : keptName r = some n := by simp [keptName, hr, hn]
          simp only [processToolingRecord, hr, if_neg hn, recCovered, recUncovered, hk]
          have := ih ⟨upsert acc.coverage n (toolingEntry (r.numLinesCovered.getD 0) (r.numLinesUncovered.getD 0)), acc.totalCovered + r.numLinesCovered.getD 0, acc.totalUncovered + r.numLinesUncovered.getD 0⟩
          dsimp only at this
          omega

theorem fallbackFold_totals (recs : List SfRecord) (acc : CoverageAcc) :
    (recs.foldl processFallbackRecord acc).totalCovered = acc.totalCovered ∧
    (recs.foldl processFallbackRecord acc).totalUncovered = acc.totalUncovered := by
  induction recs generalizing acc with
  | nil => simp
  | cons r rest ih =>
      rw [List.foldl_cons]
      rcases hr : r.name with _ | n
      · simp only [processFallbackRecord, hr]
        exact ih acc
      · by_cases hn : n = ""
        · simp only [processFallbackRecord, hr, if_pos hn]
          exact ih acc
        · simp only [processFallbackRecord, hr, if_neg hn]
          exact ih _

theorem upsert_append {m : List (String × CoverageEntry)} {k : String} {v : CoverageEntry}
    (h : k ∉ m.map Prod.fst) : upsert m k v = m ++ [(k, v)] := by
  induction m with
  | nil => rfl
  | cons p tl ih =>
      rw [List.map_cons, List.mem_cons] at h
      push_neg at h
      rw [upsert, if_neg (fun hpk => h.1 hpk.symm), ih h.2]
      rfl

theorem toolingFold_coverage (recs : List SfRecord) (acc : CoverageAcc)
    (hfresh : ∀ n ∈ recs.filterMap keptName, n ∉ acc.coverage.map Prod.fst)
    (hnd : (recs.filterMap keptName).Nodup) :
    (recs.foldl processToolingRecord acc).coverage = acc.coverage ++ toolingEntries recs := by
  induction recs generalizing acc with
  | nil => simp [toolingEntries]
  | cons r rest ih =>
      rw [List.foldl_cons]
      rcases hk : keptName r with _ | n
      · have hstep : processToolingRecord acc r = acc := by
          rcases hr : r.apexClassOrTriggerName with _ | m
          · simp [processToolingRecord, hr]
          · have hm : m = "" := by
              by_contra hm
              simp [keptName, hr, hm] at hk
            simp [processToolingRecord, hr, hm]
        rw [hstep]
        rw [List.filterMap_cons, hk] at hfresh hnd
        have hte : toolingEntries (r :: rest) = toolingEntries rest := by
          rw [toolingEntries, List.filterMap_cons, hk]
          rfl
        rw [hte]
        exact ih acc hfresh hnd
      · obtain ⟨hr, hne⟩ : r.apexClassOrTriggerName = some n ∧ n ≠ "" := by
          rcases hr : r.apexClassOrTriggerName with _ | m
          · simp [keptName, hr] at hk
          · by_cases hm : m = ""
            · simp [keptName, hr, hm] at hk
            · simp only [keptName, hr, if_neg hm] at hk
              obtain rfl := Option.some_injective _ hk
              exact ⟨rfl, hm⟩
        rw [List.filterMap_cons, hk] at hfresh hnd
        rw [List.nodup_cons] at hnd
        have hstep : processToolingRecord acc r =
            ⟨upsert acc.coverage n
                (toolingEntry (r.numLinesCovered.getD 0) (r.numLinesUncovered.getD 0)),
              acc.totalCovered + r.numLinesCovered.getD 0,
              acc.totalUncovered + r.numLinesUncovered.getD 0⟩ := by
          simp [processToolingRecord, hr, hne]
        rw [hstep]
        have hup : upsert acc.coverage n
            (toolingEntry (r.numLinesCovered.getD 0) (r.numLinesUncovered.getD 0)) =
            acc.coverage ++
              [(n, toolingEntry (r.numLinesCovered.getD 0) (r.numLinesUncovered.getD 0))] :=
          upsert_append (hfresh n (List.mem_cons_self _ _))
        have hte : toolingEntries (r :: rest) =
            (n, toolingEntry (r.numLinesCovered.getD 0) (r.numLinesUncovered.getD 0))
              :: toolingEntries rest := by
          rw [toolingEntries, List.filterMap_cons, hk]
          rfl
        have hfresh2 : ∀ n2 ∈ rest.filterMap keptName,
            n2 ∉ (acc.coverage ++
              [(n, toolingEntry (r.numLinesCovered.getD 0)
                (r.numLinesUncovered.getD 0))]).map Prod.fst := by
          intro n2 hn2
          rw [List.map_append, List.mem_append]
          rintro (h | h)
          · exact hfresh n2 (List.mem_cons_of_mem _ hn2) h
          · simp at h
            exact hnd.1 (h ▸ hn2)
        have := ih ⟨acc.coverage ++
            [(n, toolingEntry (r.numLinesCovered.getD 0) (r.numLinesUncovered.getD 0))],
          acc.totalCovered + r.numLinesCovered.getD 0,
          acc.totalUncovered + r.numLinesUncovered.getD 0⟩ hfresh2 hnd.2
        dsimp only at this
        rw [hup, this, hte, List.append_assoc]
        rfl

theorem sumCov_toolingEntries (recs : List SfRecord) :
    sumCov (toolingEntries recs) = (recs.map recCovered).sum ∧
    sumUnc (toolingEntries recs) = (recs.map recUncovered).sum := by
  induction recs with
  | nil => simp [toolingEntries, sumCov, sumUnc]
  | cons r rest ih =>
      rw [List.map_cons, List.map_cons, List.sum_cons, List.sum_cons]
      rcases hk : keptName r with _ | n
      · have hte : toolingEntries (r :: rest) = toolingEntries rest := by
          rw [toolingEntries, List.filterMap_cons, hk]
          rfl
        rw [hte]
        simp only [recCovered, recUncovered, hk]
        omega
      · have hte : toolingEntries (r :: rest) =
            (n, toolingEntry (r.numLinesCovered.getD 0) (r.numLinesUncovered.getD 0))
              :: toolingEntries rest := by
          rw [toolingEntries, List.filterMap_cons, hk]
          rfl
        rw [hte]
        simp only [recCovered, recUncovered, hk]
        simp only [sumCov, sumUnc, List.map_cons, List.sum_cons, toolingEntry] at ih ⊢
        omega

theorem sumCov_of_zeroEntries (m : List (String × CoverageEntry))
    (h : ∀ q ∈ m, q.2 = zeroEntry) : sumCov m = 0 ∧ sumUnc m = 0 := by
  constructor
  · apply List.sum_eq_zero
    intro x hx
    rcases List.mem_map.mp hx with ⟨q, hq, rfl⟩
    rw [h q hq]
    rfl
  · apply List.sum_eq_zero
    intro x hx
    rcases List.mem_map.mp hx with ⟨q, hq, rfl⟩
    rw [h q hq]
    rfl

theorem getCoverageData_parsed (env : Env) (sfCommand : List String) (orgAlias : String)
    (data : QueryData)
    (hs : (queryResult env sfCommand orgAlias).success = true)
    (hp : env.parseQuery (queryResult env sfCommand orgAlias).stdout = .ok data) :
    (getCoverageData env sfCommand orgAlias).1 =
      { success := true
        coverage := (parsedAcc env sfCommand orgAlias data).coverage
        totalCovered := (parsedAcc env sfCommand orgAlias data).totalCovered
        totalUncovered := (parsedAcc env sfCommand orgAlias data).totalUncovered
        overallPercentage :=
          computePercentage (parsedAcc env sfCommand orgAlias data).totalCovered
            ((parsedAcc env sfCommand orgAlias data).totalCovered
              + (parsedAcc env sfCommand orgAlias data).totalUncovered)
        error :=
          if testToolingAPI env sfCommand orgAlias then none
          else some "Tooling API not available - showing class list only"
        toolingAPIUsed := testToolingAPI env sfCommand orgAlias } := by
  rw [getCoverageData]
  simp only [hs, hp, if_true]
  rw [computePercentage]
  rfl

theorem queryRecords_parsed (env : Env) (sfCommand : List String) (orgAlias : String)
    (data : QueryData)
    (hs : (queryResult env sfCommand orgAlias).success = true)
    (hp : env.parseQuery (queryResult env sfCommand orgAlias).stdout = .ok data) :
    queryRecords env sfCommand orgAlias = parsedRecords data := by
  rw [queryRecords]
  simp only [hs, hp, if_true]
  rfl

/-- Claim C4: `findSFCLI` returns the first candidate invocation, in the
declared order `sf` then `npx sf`, whose `--version` run succeeds with the
`salesforce` marker; only if neither succeeds does it query the npm prefix
and probe the two platform-specific subpaths in order, returning the first
existing path whose `--version` run succeeds; if all steps fail it returns
null. -/
theorem c4_findSFCLI_order (env : Env) :
    (versionCmdOk env "sf" = true → findSFCLI env = some ["sf"]) ∧
    (versionCmdOk env "sf" = false → versionCmdOk env "npx sf" = true →
      findSFCLI env = some ["npx", "sf"]) ∧
    (versionCmdOk env "sf" = false → versionCmdOk env "npx sf" = false →
      ((runCmd env ["npm", "config", "get", "prefix"]).success = false →
        findSFCLI env = none) ∧
      ((runCmd env ["npm", "config", "get", "prefix"]).success = true →
        (pathOk env (npmPath1 env) = true → findSFCLI env = some [npmPath1 env]) ∧
        (pathOk env (npmPath1 env) = false → pathOk env (npmPath2 env) = true →
          findSFCLI env = some [npmPath2 env]) ∧
        (pathOk env (npmPath1 env) = false → pathOk env (npmPath2 env) = false →
          findSFCLI env = none))) := by
  have hs1 : jsSplit "sf" ' ' = ["sf"] := by decide
  have hs2 : jsSplit "npx sf" ' ' = ["npx", "sf"] := by decide
  refine ⟨?_, ?_, ?_⟩
  · intro h1
    rw [findSFCLI, tryCandidates, if_pos h1, hs1]
  · intro h1 h2
    rw [findSFCLI, tryCandidates, if_neg (by rw [h1]; exact Bool.false_ne_true),
      tryCandidates, if_pos h2, hs2]
  · intro h1 h2
    have htc : tryCandidates env ["sf", "npx sf"] = none := by
      rw [tryCandidates, if_neg (by rw [h1]; exact Bool.false_ne_true),
        tryCandidates, if_neg (by rw [h2]; exact Bool.false_ne_true), tryCandidates]
    constructor
    · intro hnpm
      rw [findSFCLI, htc, if_neg (by rw [hnpm]; exact Bool.false_ne_true)]
    · intro hnpm
      have hfind : findSFCLI env = tryPaths env [npmPath1 env, npmPath2 env] := by
        rw [findSFCLI, htc, if_pos hnpm]
      refine ⟨?_, ?_, ?_⟩
      · intro hp1
        rw [pathOk, Bool.and_eq_true] at hp1
        rw [hfind, tryPaths, if_pos hp1.1, if_pos hp1.2]
      · intro hp1 hp2
        rw [pathOk, Bool.and_eq_true] at hp2
        rw [hfind, tryPaths]
        rcases hfe : env.fileExists (npmPath1 env) with _ | _
        · rw [if_neg Bool.false_ne_true,
            tryPaths, if_pos hp2.1, if_pos hp2.2]
        · have hvr : (runCmd env [npmPath1 env, "--version"]).success = false := by
            rw [pathOk, hfe, Bool.true_and] at hp1
            exact hp1
          rw [if_pos rfl, if_neg (by rw [hvr]; exact Bool.false_ne_true),
            tryPaths, if_pos hp2.1, if_pos hp2.2]
      · intro hp1 hp2
        rw [hfind, tryPaths]
        have step2 : tryPaths env [npmPath2 env] = none := by
          rw [tryPaths]
          rcases hfe : env.fileExists (npmPath2 env) with _ | _
          · rw [if_neg Bool.false_ne_true, tryPaths]
          · have hvr : (runCmd env [npmPath2 env, "--version"]).success = false := by
              rw [pathOk, hfe, Bool.true_and] at hp2
              exact hp2
            rw [if_pos rfl, if_neg (by rw [hvr]; exact Bool.false_ne_true), tryPaths]
        rcases hfe : env.fileExists (npmPath1 env) with _ | _
        · rw [if_neg Bool.false_ne_true]
          exact step2
        · have hvr : (runCmd env [npmPath1 env, "--version"]).success = false := by
            rw [pathOk, hfe, Bool.true_and] at hp1
            exact hp1
          rw [if_pos rfl, if_neg (by rw [hvr]; exact Bool.false_ne_true)]
          exact step2

theorem c4_witness :
    versionCmdOk envC4 "sf" = true ∧ findSFCLI envC4 = some ["sf"] :=
  ⟨by decide, (c4_findSFCLI_order envC4).1 (by decide)⟩

/-- Claim C6: when `findSFCLI` finds nothing, `initialize` raises the
`SF CLI not found` error and the application's `init` catches it and
terminates the process with exit code 1 instead of starting the server. -/
theorem c6_tool_not_found_fatal (env : Env) (h : findSFCLI env = none) :
    initService env = .error "SF CLI not found. Please install SF CLI." ∧
    appInit env = .exited 1 := by
  constructor
  · rw [initService, h]
  · rw [appInit, initService, h]

theorem c6_witness :
    findSFCLI envC6 = none ∧
      initService envC6 = .error "SF CLI not found. Please install SF CLI." ∧
      appInit envC6 = .exited 1 :=
  ⟨by decide, c6_tool_not_found_fatal envC6 (by decide)⟩

/-- Claim C2: a subprocess that fails to spawn or exits non-zero yields a
plain result object with success false and a human-readable error string
(the trimmed stderr, or the spawn error message); `runCommand` is a total
function of the spawn outcome, so it resolves and never throws; and
`getCoverageData` surfaces a failed query as a response with success false
and a non-null `Query failed` error string rather than a thrown fault. -/
theorem c2_subprocess_failure (code : Int) (out err msg : String) (hcode : code ≠ 0)
    (env : Env) (sfCommand : List String) (orgAlias : String)
    (hq : (queryResult env sfCommand orgAlias).success = false) :
    (runCommand (.close code out err)).success = false ∧
    (runCommand (.close code out err)).stderr = jsTrim err ∧
    runCommand (.spawnError msg) =
      { success := false, stdout := "", stderr := msg, code := -1 } ∧
    (getCoverageData env sfCommand orgAlias).1.success = false ∧
    (getCoverageData env sfCommand orgAlias).1.error =
      some ("Query failed: " ++ (queryResult env sfCommand orgAlias).stderr) := by
  refine ⟨?_, rfl, rfl, ?_, ?_⟩
  · simp [runCommand, hcode]
  · rw [getCoverageData_queryFail env sfCommand orgAlias hq]
  · rw [getCoverageData_queryFail env sfCommand orgAlias hq]

theorem c2_witness :
    ((1 : Int) ≠ 0 ∧ (queryResult envC2 ["sf"] "org").success = false) ∧
    ((runCommand (.close 1 "out" "boom")).success = false ∧
      (runCommand (.close 1 "out" "boom")).stderr = jsTrim "boom" ∧
      runCommand (.spawnError "spawn failed") =
        { success := false, stdout := "", stderr := "spawn failed", code := -1 } ∧
      (getCoverageData envC2 ["sf"] "org").1.success = false ∧
      (getCoverageData envC2 ["sf"] "org").1.error =
        some ("Query failed: " ++ (queryResult envC2 ["sf"] "org").stderr)) :=
  ⟨⟨by decide, by decide⟩,
    c2_subprocess_failure 1 "out" "boom" "spawn failed" (by decide) envC2 ["sf"] "org" (by decide)⟩

/-- Claim C5: malformed JSON from the external tool surfaces an error and a
safe empty or partial result instead of crashing: `getAvailableOrgs` returns
the empty list, `getOrgInfo` returns null, and `getCoverageData` returns a
response whose error is the non-null parse-failure string and whose success
remains false. -/
theorem c5_malformed_json (env : Env) (sfCommand : List String)
    (orgAlias orgAlias2 msg1 msg2 msg3 : String)
    (hls : (runCmd env (sfCommand ++ ["org", "list", "--json"])).success = true)
    (hlp : env.parseOrgList
      (runCmd env (sfCommand ++ ["org", "list", "--json"])).stdout = .error msg1)
    (hds : (runCmd env
      (sfCommand ++ ["org", "display", "--target-org", orgAlias, "--json"])).success = true)
    (hdp : env.parseOrgDisplay
      (runCmd env (sfCommand ++ ["org", "display", "--target-org", orgAlias,
        "--json"])).stdout = .error msg2)
    (hqs : (queryResult env sfCommand orgAlias2).success = true)
    (hqp : env.parseQuery (queryResult env sfCommand orgAlias2).stdout = .error msg3) :
    getAvailableOrgs env sfCommand = [] ∧
    getOrgInfo env sfCommand orgAlias = none ∧
    (getCoverageData env sfCommand orgAlias2).1.success = false ∧
    (getCoverageData env sfCommand orgAlias2).1.error =
      some ("Failed to parse data: " ++ msg3) := by
  refine ⟨?_, ?_, ?_, ?_⟩
  · rw [getAvailableOrgs]
    simp [hls, hlp]
  · rw [getOrgInfo]
    simp [hds, hdp]
  · rw [getCoverageData_parseFail env sfCommand orgAlias2 msg3 hqs hqp]
  · rw [getCoverageData_parseFail env sfCommand orgAlias2 msg3 hqs hqp]

theorem c5_witness :
    ((runCmd envC5 (["sf"] ++ ["org", "list", "--json"])).success = true ∧
      envC5.parseOrgList (runCmd envC5 (["sf"] ++ ["org", "list", "--json"])).stdout =
        .error "Unexpected token" ∧
      (runCmd envC5 (["sf"] ++ ["org", "display", "--target-org", "o", "--json"])).success
        = true ∧
      envC5.parseOrgDisplay
        (runCmd envC5 (["sf"] ++ ["org", "display", "--target-org", "o", "--json"])).stdout
          = .error "Unexpected token" ∧
      (queryResult envC5 ["sf"] "o2").success = true ∧
      envC5.parseQuery (queryResult envC5 ["sf"] "o2").stdout = .error "Unexpected token") ∧
    (getAvailableOrgs envC5 ["sf"] = [] ∧
      getOrgInfo envC5 ["sf"] "o" = none ∧
      (getCoverageData envC5 ["sf"] "o2").1.success = false ∧
      (getCoverageData envC5 ["sf"] "o2").1.error =
        some ("Failed to parse data: " ++ "Unexpected token")) :=
  ⟨⟨by decide, rfl, by decide, rfl, by decide, rfl⟩,
    c5_malformed_json envC5 ["sf"] "o" "o2" "Unexpected token" "Unexpected token"
      "Unexpected token" (by decide) rfl (by decide) rfl (by decide) rfl⟩

/-- Claim C7 counterexample: `getAvailableOrgs` performs no filtering, so an
org entry with neither alias nor username still yields a descriptor — with
empty alias and username — refuting "every returned descriptor has alias or
username non-empty". -/
theorem c7_counterexample :
    ¬ (∀ d ∈ getAvailableOrgs envC7 ["sf"], d.aliasName ≠ "" ∨ d.username ≠ "") := by
  decide

theorem mkOrgDescriptor_props (ty : String) (o : OrgEntry) :
    ((mkOrgDescriptor ty o).aliasName ≠ "" →
      (mkOrgDescriptor ty o).identifier = some (mkOrgDescriptor ty o).aliasName) ∧
    ((mkOrgDescriptor ty o).aliasName = "" →
      ((mkOrgDescriptor ty o).identifier).getD "" = (mkOrgDescriptor ty o).username) ∧
    (mkOrgDescriptor ty o).type = ty := by
  rcases o with ⟨a, u⟩
  rcases a with _ | s
  · refine ⟨fun h => absurd rfl h, fun _ => ?_, rfl⟩
    rcases u with _ | t
    · rfl
    · by_cases ht : t = "" <;> simp [mkOrgDescriptor, jsOrOpt, jsOrStr, ht]
  · by_cases hs : s = ""
    · subst hs
      refine ⟨fun h => absurd rfl h, fun _ => ?_, rfl⟩
      rcases u with _ | t
      · rfl
      · by_cases ht : t = "" <;> simp [mkOrgDescriptor, jsOrOpt, jsOrStr, ht]
    · refine ⟨fun _ => ?_, fun h => ?_, rfl⟩
      · simp [mkOrgDescriptor, jsOrOpt, jsOrStr, hs]
      · exact absurd h (by simp [mkOrgDescriptor, jsOrStr, hs])

/-- Claim C7 (amended): each descriptor's identifier is its alias when the
alias is non-empty and otherwise its username; the type is
`Production/Sandbox` exactly for descriptors mapped from the nonScratchOrgs
list and `Scratch Org` exactly for those from the scratchOrgs list; no
filtering occurs, so alias and username may both be empty and the identifier
may be absent or empty. -/
theorem c7_amended (env : Env) (sfCommand : List String) (data : OrgListData)
    (hs : (runCmd env (sfCommand ++ ["org", "list", "--json"])).success = true)
    (hp : env.parseOrgList
      (runCmd env (sfCommand ++ ["org", "list", "--json"])).stdout = .ok data) :
    getAvailableOrgs env sfCommand =
      ((data.result.bind (·.nonScratchOrgs)).getD []).map
        (mkOrgDescriptor "Production/Sandbox")
      ++ ((data.result.bind (·.scratchOrgs)).getD []).map (mkOrgDescriptor "Scratch Org") ∧
    ∀ d ∈ getAvailableOrgs env sfCommand,
      (d.aliasName ≠ "" → d.identifier = some d.aliasName) ∧
      (d.aliasName = "" → d.identifier.getD "" = d.username) ∧
      (d.type = "Production/Sandbox" ∨ d.type = "Scratch Org") := by
  have heq : getAvailableOrgs env sfCommand =
      ((data.result.bind (·.nonScratchOrgs)).getD []).map
        (mkOrgDescriptor "Production/Sandbox")
      ++ ((data.result.bind (·.scratchOrgs)).getD []).map
        (mkOrgDescriptor "Scratch Org") := by
    rw [getAvailableOrgs]
    simp [hs, hp]
  refine ⟨heq, ?_⟩
  intro d hd
  rw [heq, List.mem_append] at hd
  rcases hd with hmem | hmem <;> rcases List.mem_map.mp hmem with ⟨o, _, rfl⟩
  · obtain ⟨p1, p2, p3⟩ := mkOrgDescriptor_props "Production/Sandbox" o
    exact ⟨p1, p2, Or.inl p3⟩
  · obtain ⟨p1, p2, p3⟩ := mkOrgDescriptor_props "Scratch Org" o
    exact ⟨p1, p2, Or.inr p3⟩

theorem c7_witness :
    ((runCmd envC7w (["sf"] ++ ["org", "list", "--json"])).success = true ∧
      envC7w.parseOrgList (runCmd envC7w (["sf"] ++ ["org", "list", "--json"])).stdout =
        .ok dataC7w) ∧
    getAvailableOrgs envC7w ["sf"] =
      ((dataC7w.result.bind (·.nonScratchOrgs)).getD []).map
        (mkOrgDescriptor "Production/Sandbox")
      ++ ((dataC7w.result.bind (·.scratchOrgs)).getD []).map
        (mkOrgDescriptor "Scratch Org") :=
  ⟨⟨by decide, rfl⟩,
    (c7_amended envC7w ["sf"] dataC7w (by decide) rfl).1⟩

/-- Claim C1: on the tooling path, every coverage-map entry has
total = covered + uncovered, percentage round(covered/total*100, 2) and
exactly 0 when the total is 0; and the overall percentage is
round(totalCovered/(totalCovered+totalUncovered)*100, 2) and exactly 0 when
that denominator is 0.  Counts are line counts, hence non-negative. -/
theorem c1_percentage_formula (env : Env) (sfCommand : List String) (orgAlias : String)
    (p : String × CoverageEntry)
    (htool : (getCoverageData env sfCommand orgAlias).1.toolingAPIUsed = true)
    (hp : p ∈ (getCoverageData env sfCommand orgAlias).1.coverage)
    (hc : 0 ≤ p.2.covered) (hu : 0 ≤ p.2.uncovered)
    (htc : 0 ≤ (getCoverageData env sfCommand orgAlias).1.totalCovered)
    (htu : 0 ≤ (getCoverageData env sfCommand orgAlias).1.totalUncovered) :
    p.2.total = p.2.covered + p.2.uncovered ∧
    (p.2.total = 0 → p.2.percentage = 0) ∧
    (p.2.total ≠ 0 →
      p.2.percentage = roundTo2 ((p.2.covered : ℚ) / (p.2.total : ℚ) * 100)) ∧
    ((getCoverageData env sfCommand orgAlias).1.totalCovered
        + (getCoverageData env sfCommand orgAlias).1.totalUncovered = 0 →
      (getCoverageData env sfCommand orgAlias).1.overallPercentage = 0) ∧
    ((getCoverageData env sfCommand orgAlias).1.totalCovered
        + (getCoverageData env sfCommand orgAlias).1.totalUncovered ≠ 0 →
      (getCoverageData env sfCommand orgAlias).1.overallPercentage =
        roundTo2 (((getCoverageData env sfCommand orgAlias).1.totalCovered : ℚ)
          / (((getCoverageData env sfCommand orgAlias).1.totalCovered
            + (getCoverageData env sfCommand orgAlias).1.totalUncovered : ℤ) : ℚ)
          * 100)) := by
  obtain ⟨he1, he2⟩ := getCoverageData_entryOK env sfCommand orgAlias p hp
  refine ⟨he1, ?_, ?_, ?_, ?_⟩
  · intro h0
    have hnp : ¬ (0 : ℤ) < p.2.total := by omega
    rw [he2, computePercentage_of_nonpos _ _ hnp]
  · intro hne
    have hpos : (0 : ℤ) < p.2.total := by omega
    rw [he2, computePercentage_eq_roundTo2 _ _ hpos]
  · intro h0
    have hnp : ¬ (0 : ℤ) < (getCoverageData env sfCommand orgAlias).1.totalCovered
        + (getCoverageData env sfCommand orgAlias).1.totalUncovered := by omega
    rw [getCoverageData_overall, computePercentage_of_nonpos _ _ hnp]
  · intro hne
    have hpos : (0 : ℤ) < (getCoverageData env sfCommand orgAlias).1.totalCovered
        + (getCoverageData env sfCommand orgAlias).1.totalUncovered := by omega
    rw [getCoverageData_overall, computePercentage_eq_roundTo2 _ _ hpos]

theorem c1_witness :
    ((getCoverageData envC1 ["sf"] "org").1.toolingAPIUsed = true ∧
      ("Foo", entryC1) ∈ (getCoverageData envC1 ["sf"] "org").1.coverage ∧
      (0 : ℤ) ≤ entryC1.covered ∧ (0 : ℤ) ≤ entryC1.uncovered ∧
      (0 : ℤ) ≤ (getCoverageData envC1 ["sf"] "org").1.totalCovered ∧
      (0 : ℤ) ≤ (getCoverageData envC1 ["sf"] "org").1.totalUncovered ∧
      entryC1.total ≠ 0) ∧
    entryC1.percentage = roundTo2 ((entryC1.covered : ℚ) / (entryC1.total : ℚ) * 100) := by
  have hmem : ("Foo", entryC1) ∈ (getCoverageData envC1 ["sf"] "org").1.coverage :=
    List.mem_singleton.mpr rfl
  refine ⟨⟨rfl, hmem, by decide, by decide, by decide, by decide, by decide⟩, ?_⟩
  exact (c1_percentage_formula envC1 ["sf"] "org" ("Foo", entryC1) rfl hmem
    (by decide) (by decide) (by decide) (by decide)).2.2.1 (by decide)

/-- Claim C3: `getCoverageData` first runs the count probe, then the rich
tooling query exactly when the probe succeeded and the fixed fallback query
otherwise (the issued-command trace is the probe followed by the chosen
query); `toolingAPIUsed` is the probe's outcome; and on the fallback path
every entry of the returned coverage map has covered 0, uncovered 0,
total 0, and percentage 0. -/
theorem c3_probe_and_paths (env : Env) (sfCommand : List String) (orgAlias : String) :
    (getCoverageData env sfCommand orgAlias).2 =
      [probeArgs sfCommand orgAlias,
        if testToolingAPI env sfCommand orgAlias = true then
          toolingQueryArgs sfCommand orgAlias
        else fallbackQueryArgs sfCommand orgAlias] ∧
    (getCoverageData env sfCommand orgAlias).1.toolingAPIUsed
      = testToolingAPI env sfCommand orgAlias ∧
    (testToolingAPI env sfCommand orgAlias = false →
      ∀ q ∈ (getCoverageData env sfCommand orgAlias).1.coverage,
        q.2.covered = 0 ∧ q.2.uncovered = 0 ∧ q.2.total = 0 ∧ q.2.percentage = 0) := by
  refine ⟨?_, getCoverageData_toolingAPIUsed env sfCommand orgAlias, ?_⟩
  · rw [getCoverageData_trace, executedQueryArgs]
  · intro ht q hq
    cases hs : (queryResult env sfCommand orgAlias).success with
    | false =>
        rw [getCoverageData_queryFail env sfCommand orgAlias hs] at hq
        simp at hq
    | true =>
        cases hp : env.parseQuery (queryResult env sfCommand orgAlias).stdout with
        | error msg =>
            rw [getCoverageData_parseFail env sfCommand orgAlias msg hs hp] at hq
            simp at hq
        | ok data =>
            rw [getCoverageData_parsed env sfCommand orgAlias data hs hp] at hq
            dsimp only at hq
            rw [parsedAcc, if_neg (by rw [ht]; exact Bool.false_ne_true)] at hq
            have hz := fallbackFold_zeroEntry (parsedRecords data) ⟨[], 0, 0⟩
              (by intro x hx; simp at hx) q hq
            rw [hz]
            exact ⟨rfl, rfl, rfl, rfl⟩

theorem c3_witness :
    (testToolingAPI envC3 ["sf"] "o" = false ∧
      ("Bar", zeroEntry) ∈ (getCoverageData envC3 ["sf"] "o").1.coverage) ∧
    ((getCoverageData envC3 ["sf"] "o").2 =
      [probeArgs ["sf"] "o",
        if testToolingAPI envC3 ["sf"] "o" = true then toolingQueryArgs ["sf"] "o"
        else fallbackQueryArgs ["sf"] "o"] ∧
      zeroEntry.covered = 0 ∧ zeroEntry.uncovered = 0 ∧ zeroEntry.total = 0 ∧
      zeroEntry.percentage = 0) := by
  have hmem : ("Bar", zeroEntry) ∈ (getCoverageData envC3 ["sf"] "o").1.coverage :=
    List.mem_singleton.mpr rfl
  refine ⟨⟨by decide, hmem⟩, (c3_probe_and_paths envC3 ["sf"] "o").1, ?_⟩
  exact (c3_probe_and_paths envC3 ["sf"] "o").2.2 (by decide) ("Bar", zeroEntry) hmem

/-- Claim C8: every entry of the coverage map, on both paths, has
total = covered + uncovered, and its percentage lies within [0, 100]
whenever its counts are non-negative. -/
theorem c8_entry_invariants (env : Env) (sfCommand : List String) (orgAlias : String)
    (p : String × CoverageEntry)
    (hp : p ∈ (getCoverageData env sfCommand orgAlias).1.coverage)
    (hc : 0 ≤ p.2.covered) (hu : 0 ≤ p.2.uncovered) :
    p.2.total = p.2.covered + p.2.uncovered ∧
    0 ≤ p.2.percentage ∧ p.2.percentage ≤ 100 := by
  obtain ⟨he1, he2⟩ := getCoverageData_entryOK env sfCommand orgAlias p hp
  obtain ⟨hb1, hb2⟩ := computePercentage_bounds p.2.covered p.2.uncovered hc hu
  rw [he1] at he2
  refine ⟨he1, ?_, ?_⟩ <;> rw [he2]
  · exact hb1
  · exact hb2

theorem c8_witness :
    (("Baz", toolingEntry 7 3) ∈ (getCoverageData envC8 ["sf"] "org").1.coverage ∧
      (0 : ℤ) ≤ (toolingEntry 7 3).covered ∧ (0 : ℤ) ≤ (toolingEntry 7 3).uncovered) ∧
    ((toolingEntry 7 3).total = (toolingEntry 7 3).covered + (toolingEntry 7 3).uncovered ∧
      0 ≤ (toolingEntry 7 3).percentage ∧ (toolingEntry 7 3).percentage ≤ 100) := by
  have hmem : ("Baz", toolingEntry 7 3) ∈ (getCoverageData envC8 ["sf"] "org").1.coverage :=
    List.mem_singleton.mpr rfl
  exact ⟨⟨hmem, by decide, by decide⟩,
    c8_entry_invariants envC8 ["sf"] "org" ("Baz", toolingEntry 7 3) hmem
      (by decide) (by decide)⟩

/-- Claim C9 counterexample: with two records both named A (1 covered line
each), the running total counts both (totalCovered 2) while the map keeps a
single overwritten entry (sum of covered 1), so the claimed equality fails. -/
theorem c9_counterexample :
    ¬ ((getCoverageData envC9 ["sf"] "o").1.totalCovered
        = sumCov (getCoverageData envC9 ["sf"] "o").1.coverage ∧
      (getCoverageData envC9 ["sf"] "o").1.totalUncovered
        = sumUnc (getCoverageData envC9 ["sf"] "o").1.coverage) := by
  decide

/-- Claim C9 (amended): when the kept record names are pairwise distinct,
the returned totalCovered equals the sum of the covered fields over the
entries of the returned coverage map, and totalUncovered equals the sum of
the uncovered fields.  (Duplicate names break this: each duplicate is added
to the totals but overwrites its map entry.) -/
theorem c9_amended (env : Env) (sfCommand : List String) (orgAlias : String)
    (hnd : ((queryRecords env sfCommand orgAlias).filterMap keptName).Nodup) :
    (getCoverageData env sfCommand orgAlias).1.totalCovered
        = sumCov (getCoverageData env sfCommand orgAlias).1.coverage ∧
    (getCoverageData env sfCommand orgAlias).1.totalUncovered
        = sumUnc (getCoverageData env sfCommand orgAlias).1.coverage := by
  cases hs : (queryResult env sfCommand orgAlias).success with
  | false =>
      rw [getCoverageData_queryFail env sfCommand orgAlias hs]
      exact ⟨rfl, rfl⟩
  | true =>
      cases hp : env.parseQuery (queryResult env sfCommand orgAlias).stdout with
      | error msg =>
          rw [getCoverageData_parseFail env sfCommand orgAlias msg hs hp]
          exact ⟨rfl, rfl⟩
      | ok data =>
          rw [queryRecords_parsed env sfCommand orgAlias data hs hp] at hnd
          rw [getCoverageData_parsed env sfCommand orgAlias data hs hp]
          dsimp only
          rw [parsedAcc]
          cases ht : testToolingAPI env sfCommand orgAlias with
          | true =>
              rw [if_pos rfl]
              obtain ⟨h1, h2⟩ := toolingFold_totals (parsedRecords data) ⟨[], 0, 0⟩
              have h3 := toolingFold_coverage (parsedRecords data) ⟨[], 0, 0⟩
                (by intro x hx; simp) hnd
              obtain ⟨h4, h5⟩ := sumCov_toolingEntries (parsedRecords data)
              dsimp only at h1 h2 h3
              rw [h1, h2, h3, List.nil_append, h4, h5]
              omega
          | false =>
              rw [if_neg Bool.false_ne_true]
              obtain ⟨h1, h2⟩ := fallbackFold_totals (parsedRecords data) ⟨[], 0, 0⟩
              have hz := fallbackFold_zeroEntry (parsedRecords data) ⟨[], 0, 0⟩
                (by intro x hx; simp at hx)
              obtain ⟨h3, h4⟩ := sumCov_of_zeroEntries _ hz
              dsimp only at h1 h2
              rw [h1, h2, h3, h4]
              exact ⟨rfl, rfl⟩

theorem c9_witness :
    ((queryRecords envC9w ["sf"] "o").filterMap keptName).Nodup ∧
    ((getCoverageData envC9w ["sf"] "o").1.totalCovered
        = sumCov (getCoverageData envC9w ["sf"] "o").1.coverage ∧
      (getCoverageData envC9w ["sf"] "o").1.totalUncovered
        = sumUnc (getCoverageData envC9w ["sf"] "o").1.coverage) :=
  ⟨by decide, c9_amended envC9w ["sf"] "o" (by decide)⟩

/-- Claim C10: for an input where the probe fails but the fallback query
succeeds and parses, `getCoverageData` returns success true together with a
non-null error string — success true does not imply a null error field. -/
theorem c10_success_with_error :
    (getCoverageData envC10 ["sf"] "o").1.success = true ∧
    (getCoverageData envC10 ["sf"] "o").1.error =
      some "Tooling API not available - showing class list only" := by
  exact ⟨by decide, by decide⟩
